import Mathlib

/-
Shallow embedding of the zfs-provisioner controller
(src/zfs_provisioner/handlers.py) together with a model of the parts of the
bitmath library (its parse_string entry point and unit classes) that the
handlers call.  Python dictionaries whose keys may be missing are embedded as
association lists read through dget, which returns Option; Python KeyError /
ValueError / kopf.HandlerFatalError / kubernetes ApiException control flow is
embedded as Except PyErr.  Numeric values are exact (the float rounding of
very large quantities is out of scope).
-/

namespace ZfsProv

/-- Python exception kinds that the handlers can raise or propagate. -/
inductive PyErr where
  | keyError : String → PyErr
  | valueError : String → PyErr
  | indexError : String → PyErr
  | apiError : String → PyErr
  | fatalError : String → PyErr
  | temporaryError : String → PyErr
  deriving DecidableEq, Repr

/-- Dictionary access, `d[k]` / `d.get(k)`: first matching key wins. -/
def dget {α : Type} : List (String × α) → String → Option α
  | [], _ => none
  | (k, v) :: rest, key => if k = key then some v else dget rest key

abbrev Dict := List (String × String)

/-- One sub-result of the zfs-provisioner/results annotation (a JSON object
of strings, e.g. the value stored under the create_dataset key). -/
abbrev SubResult := Dict

/-- The decoded zfs-provisioner/results annotation: reconciler name to
sub-result. -/
abbrev ResultsDict := List (String × SubResult)

/-- handlers.py line 56: the cached StorageClass dataclass.  The class-level
constants MODE_LOCAL / RECLAIM_POLICY_DELETE are embedded as the string
literals they hold. -/
structure StorageClass where
  name : String
  provisioner : String
  allowVolumeExpansion : Bool := false
  mountOptions : List String := []
  parameters : List (String × String) := []
  reclaimPolicy : String := "Delete"
  volumeBindingMode : String := "VolumeBindingImmediate"
  deriving DecidableEq, Repr

/-- handlers.py line 29: the Config dataclass (the fields the modelled
handlers read; namespace / node_name / config only feed I/O plumbing). -/
structure Config where
  provisioner_name : String := "asteven/zfs-provisioner"
  default_parent_dataset : String := "chaos/data/local-zfs-provisioner"
  dataset_mount_dir : String := "/var/lib/local-zfs-provisioner"
  container_image : String := "asteven/zfs-provisioner"
  storage_classes : List (String × StorageClass) := []
  deriving DecidableEq, Repr

/-- handlers.py line 43: CONFIG.dataset_phase_annotations, the dict built for
the actions create, delete and resize. -/
def phaseKey (action : String) : String :=
  "zfs-provisioner/dataset-phase-" ++ action

/-- CONFIG.dataset_phase_annotations[action] with its KeyError behaviour:
only create, delete and resize are keys of the dict. -/
def phaseKeyOf (action : String) : Except PyErr String :=
  if action = "create" then .ok (phaseKey "create")
  else if action = "delete" then .ok (phaseKey "delete")
  else if action = "resize" then .ok (phaseKey "resize")
  else .error (.keyError action)

/-- An ownerReferences entry as read by the pod watcher. -/
structure OwnerRef where
  kind : String
  name : String
  ns : Option String := none
  deriving DecidableEq, Repr

/-- The metadata of a watched object: uid, the annotation dict (field anns)
and the label dict, plus ownerReferences. -/
structure Meta where
  uid : String := ""
  anns : Dict := []
  labels : Dict := []
  owners : List OwnerRef := []
  deriving DecidableEq, Repr

/-- The parts of a PVC spec read by the handlers.  requests_storage stands
for the chain spec[resources][requests][storage]; a missing key at any level
of the chain raises KeyError, so one Option covers all three levels. -/
structure PVCSpec where
  storageClassName : Option String := none
  requests_storage : Option String := none
  accessModes : List String := []
  volumeMode : Option String := none
  deriving DecidableEq, Repr

/- ----------------------------------------------------------------------
Model of bitmath.parse_string (bitmath 1.3.x), called at handlers.py
line 233.  parse_string splits the input at the first alphabetic character,
resolves the unit part case-sensitively against the module's classes
(a trailing lowercase b is a bit unit, uppercase B a byte unit; the SI and
NIST prefixes run k/K..E), and converts the value part with float().
The numeric part is modelled for unsigned decimal literals, which is what
Kubernetes storage quantities carry.  A quantity is kept as an exact pair
mantissa / 10^scale together with the unit size in bits.
---------------------------------------------------------------------- -/

/-- The bitmath unit classes and their sizes in bits (lowercase trailing b
is a bit unit, uppercase B a byte unit; kb/kB are SI, Kib/KiB are NIST). -/
def bitmath_unit_bits : List (String × Nat) :=
  [("Bit", 1), ("Byte", 8),
   ("kb", 1000), ("kB", 8 * 1000),
   ("Mb", 10 ^ 6), ("MB", 8 * 10 ^ 6),
   ("Gb", 10 ^ 9), ("GB", 8 * 10 ^ 9),
   ("Tb", 10 ^ 12), ("TB", 8 * 10 ^ 12),
   ("Pb", 10 ^ 15), ("PB", 8 * 10 ^ 15),
   ("Eb", 10 ^ 18), ("EB", 8 * 10 ^ 18),
   ("Kib", 2 ^ 10), ("KiB", 8 * 2 ^ 10),
   ("Mib", 2 ^ 20), ("MiB", 8 * 2 ^ 20),
   ("Gib", 2 ^ 30), ("GiB", 8 * 2 ^ 30),
   ("Tib", 2 ^ 40), ("TiB", 8 * 2 ^ 40),
   ("Pib", 2 ^ 50), ("PiB", 8 * 2 ^ 50),
   ("Eib", 2 ^ 60), ("EiB", 8 * 2 ^ 60)]

/-- parse_string's unit resolution, including the special-casing of the
bare units b and B. -/
def unit_bits (unit : String) : Option Nat :=
  if unit = "b" then some 1
  else if unit = "B" then some 8
  else dget bitmath_unit_bits unit

def natOfDigits (cs : List Char) : Nat :=
  cs.foldl (fun a c => a * 10 + (c.toNat - 48)) 0

/-- float(val) for the unsigned decimal literals relevant here: digits with
at most one decimal point and at least one digit.  Returns the exact value
as mantissa / 10^scale. -/
def parse_decimal (cs : List Char) : Option (Nat × Nat) :=
  if cs.isEmpty then none
  else if !(cs.all (fun c => c.isDigit || c == '.')) then none
  else if 1 < (cs.filter (fun c => c == '.')).length then none
  else if !(cs.any Char.isDigit) then none
  else
    let ip := cs.takeWhile (fun c => c != '.')
    let fp := (cs.dropWhile (fun c => c != '.')).drop 1
    some (natOfDigits (ip ++ fp), fp.length)

/-- A parsed bitmath quantity: value mantissa / 10^scale of a unit of
unit_size bits. -/
structure BmQuantity where
  mantissa : Nat
  scale : Nat
  unit_size : Nat
  deriving DecidableEq, Repr

/-- int(q.bytes) for a nonnegative quantity: exact truncating division. -/
def BmQuantity.bytes_int (q : BmQuantity) : Nat :=
  q.mantissa * q.unit_size / (8 * 10 ^ q.scale)

/-- bitmath.parse_string: split at the first alphabetic character, resolve
the unit, parse the value; ValueError when any step fails. -/
def bitmath_parse_string (s : String) : Except PyErr BmQuantity :=
  let cs := s.toList
  match cs.findIdx? Char.isAlpha with
  | none => .error (.valueError ("No unit detected, can not parse string " ++ s))
  | some i =>
    let unit := String.mk (cs.drop i)
    match unit_bits unit with
    | none => .error (.valueError ("The unit " ++ unit ++ " is not a valid bitmath unit"))
    | some ub =>
      match parse_decimal (cs.take i) with
      | none => .error (.valueError ("The value " ++ String.mk (cs.take i)
          ++ " can not be parsed into a number"))
      | some (m, sc) => .ok { mantissa := m, scale := sc, unit_size := ub }

/-- handlers.py line 230: storage[-1:] == 'i' appends a b so that e.g. Gi
becomes Gib before the string reaches bitmath. -/
def fix_suffix (s : String) : String :=
  if s.toList.getLast? = some 'i' then s ++ "b" else s

/- ----------------------------------------------------------------------
Kubernetes API surface used by the handlers.
---------------------------------------------------------------------- -/

/-- The pods that already exist on the API server, by name.  This is the
only API state the embedded handlers branch on. -/
structure ApiState where
  pods : List String := []
  deriving DecidableEq, Repr

/-- api.create_namespaced_pod: raises ApiException AlreadyExists when a pod
of that name exists; otherwise the new pod's status.phase is Pending. -/
def create_namespaced_pod (api : ApiState) (podName : String) : Except PyErr String :=
  if api.pods.contains podName then .error (.apiError "AlreadyExists")
  else .ok "Pending"

/-- The worker pod a handler submits: name, target node, container argv and
the zfs-provisioner/action label kopf.label attaches. -/
structure PodModel where
  name : String
  node : String
  args : List String
  action_label : String
  deriving DecidableEq, Repr

/-- The PV published by create_pv.  Modelled from the spec: the file
templates/pvc.yaml is not under src/; per the spec the PV carries
metadata.name = pv_name, spec.accessModes = [access_mode] (a single-element
list), capacity.storage verbatim, local.path = mount_point, node affinity to
selected_node, claimRef back to the PVC, storageClassName, volumeMode and
the StorageClass reclaimPolicy. -/
structure PVData where
  name : String
  access_modes : List String
  storage : String
  claim_name : String
  claim_ns : String
  local_path : String
  selected_node : String
  storage_class_name : String
  volume_mode : String
  reclaim_policy : String
  provisioner : String
  deriving DecidableEq, Repr

/-- The observable effects of one handler invocation: the worker pod it
submitted, the annotation patch it wrote, the PV it created or deleted, and
the value it returned to the annotate_results wrapper. -/
structure HandlerOut where
  pod : Option PodModel := none
  annPatch : Dict := []
  pvCreated : Option PVData := none
  pvDeleted : Option String := none
  result : Option SubResult := none
  deriving DecidableEq, Repr

/- ----------------------------------------------------------------------
The handlers.
---------------------------------------------------------------------- -/

/-- handlers.py line 161: filter_create_dataset. -/
def filter_create_dataset (cfg : Config) (meta : Meta) (spec : PVCSpec)
    (status_phase : Option String) : Bool :=
  if status_phase ≠ some "Pending" then false
  else if (dget meta.anns (phaseKey "create")).isSome then false
  else
    match spec.storageClassName with
    | none => false
    | some scn =>
      match dget cfg.storage_classes scn with
      | none => false
      | some sc =>
        if sc.volumeBindingMode = "WaitForFirstConsumer" then
          (dget meta.anns "volume.kubernetes.io/selected-node").isSome
        else true

/-- handlers.py line 380: filter_delete_dataset.  Note the source sets
handle_it = True on finding the storage class and the subsequent
`if reclaimPolicy == Delete: handle_it = True` assigns True again, so the
reclaim policy never changes the outcome. -/
def filter_delete_dataset (cfg : Config) (meta : Meta) (spec : PVCSpec) : Bool :=
  if (dget meta.anns (phaseKey "delete")).isSome then false
  else
    match spec.storageClassName with
    | none => false
    | some scn =>
      match dget cfg.storage_classes scn with
      | none => false
      | some sc =>
        if sc.reclaimPolicy = "Delete" then true else true

/-- handlers.py line 196, body of create_dataset after the storage class has
been fetched from the cache.  The storage class is consulted only for
parameters.get('mode', 'local'). -/
def create_dataset_sc (cfg : Config) (meta : Meta) (spec : PVCSpec)
    (api : ApiState) (sc : StorageClass) : Except PyErr HandlerOut :=
  let pv_name := "pvc-" ++ meta.uid
  let pod_name := pv_name ++ "-create"
  let mode := (dget sc.parameters "mode").getD "local"
  if mode = "local" then
    match dget meta.anns "volume.kubernetes.io/selected-node" with
    | none => .error (.keyError "volume.kubernetes.io/selected-node")
    | some selected_node =>
      let dataset_name := cfg.default_parent_dataset ++ "/" ++ pv_name
      let mount_point := cfg.dataset_mount_dir ++ "/" ++ pv_name
      let quotaArgs : Except PyErr (List String) :=
        match spec.requests_storage with
        | none => .ok []
        | some storage =>
          match bitmath_parse_string (fix_suffix storage) with
          | .error e => .error e
          | .ok q => .ok ["--quota", toString q.bytes_int]
      match quotaArgs with
      | .error e => .error e
      | .ok qargs =>
        let pod_args := ["dataset", "create"] ++ qargs ++ [dataset_name, mount_point]
        match create_namespaced_pod api pod_name with
        | .error e => .error e
        | .ok pod_phase =>
          .ok { pod := some { name := pod_name, node := selected_node,
                              args := pod_args, action_label := "create" },
                annPatch := [(phaseKey "create", pod_phase)],
                result := some [("pv_name", pv_name), ("pod_name", pod_name),
                                ("dataset_name", dataset_name),
                                ("mount_point", mount_point),
                                ("selected_node", selected_node),
                                ("phase", pod_phase)] }
  else .error (.fatalError ("Unsupported storage class mode: " ++ mode))

/-- handlers.py line 196: create_dataset, including the storage class cache
lookups at lines 203-204. -/
def create_dataset (cfg : Config) (meta : Meta) (spec : PVCSpec)
    (api : ApiState) : Except PyErr HandlerOut :=
  match spec.storageClassName with
  | none => .error (.keyError "storageClassName")
  | some scn =>
    match dget cfg.storage_classes scn with
    | none => .error (.keyError scn)
    | some sc => create_dataset_sc cfg meta spec api sc

/-- handlers.py line 421: delete_dataset.  The PV deletion is recorded as an
effect (the client call itself is unconditional in the source). -/
def delete_dataset (results : ResultsDict) (api : ApiState) :
    Except PyErr HandlerOut :=
  match dget results "create_dataset" with
  | none => .error (.keyError "create_dataset")
  | some cdr =>
    match dget cdr "pv_name" with
    | none => .error (.keyError "pv_name")
    | some pv_name =>
      let pod_name := pv_name ++ "-delete"
      match dget cdr "dataset_name" with
      | none => .error (.keyError "dataset_name")
      | some dataset_name =>
      match dget cdr "mount_point" with
      | none => .error (.keyError "mount_point")
      | some mount_point =>
      match dget cdr "selected_node" with
      | none => .error (.keyError "selected_node")
      | some selected_node =>
        let pod_args := ["dataset", "destroy", dataset_name, mount_point]
        match create_namespaced_pod api pod_name with
        | .error e => .error e
        | .ok pod_phase =>
          .ok { pod := some { name := pod_name, node := selected_node,
                              args := pod_args, action_label := "delete" },
                annPatch := [(phaseKey "delete", pod_phase)],
                pvDeleted := some pv_name,
                result := some [("pv_name", pv_name), ("pod_name", pod_name),
                                ("phase", pod_phase)] }

/-- handlers.py line 339: create_pv.  The keyword arguments of the template
format call are evaluated left to right, which fixes the error precedence
among the dictionary and list accesses. -/
def create_pv (cfg : Config) (name ns : String) (meta : Meta) (spec : PVCSpec)
    (results : ResultsDict) : Except PyErr HandlerOut :=
  let dataset_phase := (dget meta.anns (phaseKey "create")).getD "Pending"
  if dataset_phase = "Pending" then
    .error (.temporaryError "Dataset has not been created yet.")
  else if dataset_phase = "Failed" then
    .error (.fatalError "Failed to create dataset.")
  else if dataset_phase = "Succeeded" then
    let cdr := (dget results "create_dataset").getD []
    match spec.storageClassName with
    | none => .error (.keyError "storageClassName")
    | some scn =>
    match dget cfg.storage_classes scn with
    | none => .error (.keyError scn)
    | some sc =>
    match dget meta.anns "volume.kubernetes.io/selected-node" with
    | none => .error (.keyError "volume.kubernetes.io/selected-node")
    | some selected_node =>
    match dget cdr "pv_name" with
    | none => .error (.keyError "pv_name")
    | some pv_name =>
    match spec.accessModes with
    | [] => .error (.indexError "list index out of range")
    | am :: _ =>
    match spec.requests_storage with
    | none => .error (.keyError "storage")
    | some storage =>
    match dget cdr "mount_point" with
    | none => .error (.keyError "mount_point")
    | some mount_point =>
    match spec.volumeMode with
    | none => .error (.keyError "volumeMode")
    | some volume_mode =>
      .ok { pvCreated := some
              { name := pv_name, access_modes := [am], storage := storage,
                claim_name := name, claim_ns := ns, local_path := mount_point,
                selected_node := selected_node, storage_class_name := scn,
                volume_mode := volume_mode, reclaim_policy := sc.reclaimPolicy,
                provisioner := sc.provisioner },
            result := none }
  else
    -- any other phase: the handler body is skipped and returns None
    .ok {}

/-- The outcome of one pod watcher invocation: the PVC patches it issued as
(name, namespace, annotation patch) triples, and the pod it deleted. -/
structure WatchOut where
  patches : List (String × String × Dict) := []
  podDeleted : Option String := none
  deriving DecidableEq, Repr

/-- handlers.py line 278: dataset_create_pod_event. -/
def dataset_create_pod_event (podName event_type : String) (meta : Meta)
    (status_phase : Option String) (ns : String) : Except PyErr WatchOut :=
  if event_type = "MODIFIED" then
    match status_phase with
    | none => .error (.keyError "phase")
    | some phase =>
    match dget meta.labels "zfs-provisioner/action" with
    | none => .error (.keyError "zfs-provisioner/action")
    | some action =>
    match phaseKeyOf action with
    | .error e => .error e
    | .ok annKey =>
      if phase = "Succeeded" ∨ phase = "Failed" then
        .ok { patches :=
                (meta.owners.filter
                    (fun o => o.kind == "PersistentVolumeClaim")).map
                  (fun o => (o.name, o.ns.getD ns, [(annKey, phase)])),
              podDeleted := some podName }
      else .ok {}
  else .ok {}

/-- handlers.py line 474: dataset_delete_pod_event.  The action label is
read but no PVC is patched; a terminal phase only deletes the pod. -/
def dataset_delete_pod_event (podName event_type : String) (meta : Meta)
    (status_phase : Option String) (_ns : String) : Except PyErr WatchOut :=
  if event_type = "MODIFIED" then
    match status_phase with
    | none => .error (.keyError "phase")
    | some phase =>
    match dget meta.labels "zfs-provisioner/action" with
    | none => .error (.keyError "zfs-provisioner/action")
    | some _action =>
      if phase = "Succeeded" ∨ phase = "Failed" then
        .ok { podDeleted := some podName }
      else .ok {}
  else .ok {}

/-- d[k] = v on a Python dict: replace the binding if present, else append. -/
def dictSet (d : ResultsDict) (k : String) (v : SubResult) : ResultsDict :=
  match d with
  | [] => [(k, v)]
  | (k', v') :: rest => if k' = k then (k, v) :: rest else (k', v') :: dictSet rest k v

/-- handlers.py line 97, the write half of the annotate_results decorator:
given the decoded results and the handler's return value, the new value of
the results annotation if one is written (`if result:` skips None and empty
dicts). -/
def annotate_results_patch (fname : String) (results : ResultsDict)
    (ret : Option SubResult) : Option ResultsDict :=
  match ret with
  | some r => if r.isEmpty then none else some (dictSet results fname r)
  | none => none

/-- create_pv composed with the write half of its annotate_results wrapper:
the value the wrapper stores into the results annotation, if any. -/
def create_pv_results_patch (cfg : Config) (name ns : String) (meta : Meta)
    (spec : PVCSpec) (results : ResultsDict) : Option ResultsDict :=
  match create_pv cfg name ns meta spec results with
  | .ok out => annotate_results_patch "create_pv" results out.result
  | .error _ => none

/- ----------------------------------------------------------------------
Concrete fixtures used by counterexamples and witnesses.
---------------------------------------------------------------------- -/

/-- A cached StorageClass with the default reclaimPolicy Delete. -/
def scLocal : StorageClass :=
  { name := "zfs-local", provisioner := "asteven/zfs-provisioner" }

/-- A cached StorageClass with reclaimPolicy Retain. -/
def scRetain : StorageClass :=
  { name := "zfs-retain", provisioner := "asteven/zfs-provisioner",
    reclaimPolicy := "Retain" }

def cfg0 : Config :=
  { storage_classes := [("zfs-local", scLocal), ("zfs-retain", scRetain)] }

/-- PVC metadata with a selected node and no phase keys. -/
def meta0 : Meta :=
  { uid := "u1", anns := [("volume.kubernetes.io/selected-node", "node-7")] }

/-- PVC metadata after a create worker succeeded. -/
def metaSucceeded : Meta :=
  { uid := "u1",
    anns := [("volume.kubernetes.io/selected-node", "node-7"),
             (phaseKey "create", "Succeeded")] }

/-- A decoded results dict as create_dataset leaves it for pvc uid u1. -/
def resultsU1 : ResultsDict :=
  [("create_dataset",
    [("pv_name", "pvc-u1"), ("pod_name", "pvc-u1-create"),
     ("dataset_name", "chaos/data/local-zfs-provisioner/pvc-u1"),
     ("mount_point", "/var/lib/local-zfs-provisioner/pvc-u1"),
     ("selected_node", "node-7"), ("phase", "Pending")])]

def apiEmpty : ApiState := {}

/-- A PVC spec requesting two access modes. -/
def specMulti : PVCSpec :=
  { storageClassName := some "zfs-local", requests_storage := some "1Gi",
    accessModes := ["ReadWriteOnce", "ReadOnlyMany"],
    volumeMode := some "Filesystem" }

/-- The PV create_pv publishes for specMulti / metaSucceeded / resultsU1. -/
def pvFix : PVData :=
  { name := "pvc-u1", access_modes := ["ReadWriteOnce"], storage := "1Gi",
    claim_name := "claim-a", claim_ns := "app",
    local_path := "/var/lib/local-zfs-provisioner/pvc-u1",
    selected_node := "node-7", storage_class_name := "zfs-local",
    volume_mode := "Filesystem", reclaim_policy := "Delete",
    provisioner := "asteven/zfs-provisioner" }

def outFix : HandlerOut := { pvCreated := some pvFix }

/-- Metadata of a delete-action worker pod owned by a PVC. -/
def metaDeletePod : Meta :=
  { labels := [("zfs-provisioner/action", "delete")],
    owners := [{ kind := "PersistentVolumeClaim", name := "claim-a" }] }

/- ----------------------------------------------------------------------
Helper lemmas.
---------------------------------------------------------------------- -/

/-- bitmath_parse_string fails only with ValueError. -/
theorem bitmath_parse_string_error_shape (s : String) (e : PyErr)
    (h : bitmath_parse_string s = .error e) : ∃ m, e = .valueError m := by
  simp only [bitmath_parse_string] at h
  repeat' split at h
  all_goals first
    | exact Except.noConfusion h
    | (injection h with h2; exact ⟨_, h2.symm⟩)

/-- create_namespaced_pod fails only with the AlreadyExists ApiException. -/
theorem create_namespaced_pod_error_shape (api : ApiState) (n : String) (e : PyErr)
    (h : create_namespaced_pod api n = .error e) : e = .apiError "AlreadyExists" := by
  unfold create_namespaced_pod at h
  split at h
  · injection h with h2; exact h2.symm
  · exact Except.noConfusion h

/- ----------------------------------------------------------------------
Claims.
---------------------------------------------------------------------- -/

/-- Claim C1: the claim says a Retain StorageClass keeps the delete
reconciler from being admitted.  The code disagrees: filter_delete_dataset
sets handle_it to True once the storage class is found and the reclaim
policy test assigns True again, so a PVC on a cached Retain class with no
dataset-phase-delete key IS admitted, and delete_dataset then launches a
destroy worker pod and deletes the PV. -/
theorem c1_retain_admitted_to_delete :
    filter_delete_dataset cfg0 meta0 { storageClassName := some "zfs-retain" } = true ∧
    (delete_dataset resultsU1 apiEmpty).map (fun o => (o.pod.isSome, o.pvDeleted)) =
      .ok (true, some "pvc-u1") :=
  ⟨rfl, rfl⟩

/-- Claim C2 counterexample: with the create worker pod already on the API
server, create_dataset does not squash AlreadyExists to success: it
propagates the API error, fetches no phase and records no annotation. -/
theorem c2_counterexample :
    create_dataset cfg0 meta0
      { storageClassName := some "zfs-local", requests_storage := some "1Gi",
        accessModes := ["ReadWriteOnce"], volumeMode := some "Filesystem" }
      { pods := ["pvc-u1-create"] } = .error (.apiError "AlreadyExists") :=
  rfl

/-- Claim C2 amended: when the worker pod already exists, both
create_dataset and delete_dataset propagate the AlreadyExists API error
out of the handler; neither treats it as success nor fetches the existing
pod's phase. -/
theorem c2_already_exists_propagates
    (cfg : Config) (meta : Meta) (spec : PVCSpec) (api : ApiState)
    (scn : String) (sc : StorageClass) (node : String)
    (results : ResultsDict) (cdr : SubResult) (pvn dsn mnt sn : String)
    (h1 : spec.storageClassName = some scn)
    (h2 : dget cfg.storage_classes scn = some sc)
    (h3 : dget sc.parameters "mode" = none)
    (h4 : dget meta.anns "volume.kubernetes.io/selected-node" = some node)
    (h5 : spec.requests_storage = none)
    (h6 : api.pods.contains (("pvc-" ++ meta.uid) ++ "-create") = true)
    (h7 : dget results "create_dataset" = some cdr)
    (h8 : dget cdr "pv_name" = some pvn)
    (h9 : dget cdr "dataset_name" = some dsn)
    (h10 : dget cdr "mount_point" = some mnt)
    (h11 : dget cdr "selected_node" = some sn)
    (h12 : api.pods.contains (pvn ++ "-delete") = true) :
    create_dataset cfg meta spec api = .error (.apiError "AlreadyExists") ∧
    delete_dataset results api = .error (.apiError "AlreadyExists") := by
  constructor
  · simp only [create_dataset, create_dataset_sc, create_namespaced_pod,
      h1, h2, h3, h4, h5, h6, Option.getD_none]
    simp [h6]
  · simp only [delete_dataset, create_namespaced_pod,
      h7, h8, h9, h10, h11, h12]
    simp [h12]

/-- Claim C2 witness for the amended theorem at a concrete world. -/
theorem c2_witness :
    create_dataset cfg0 meta0 { storageClassName := some "zfs-local" }
        { pods := ["pvc-u1-create", "pvc-u1-delete"] } =
      .error (.apiError "AlreadyExists") ∧
    delete_dataset resultsU1 { pods := ["pvc-u1-create", "pvc-u1-delete"] } =
      .error (.apiError "AlreadyExists") :=
  c2_already_exists_propagates cfg0 meta0 { storageClassName := some "zfs-local" }
    { pods := ["pvc-u1-create", "pvc-u1-delete"] }
    "zfs-local" scLocal "node-7" resultsU1
    [("pv_name", "pvc-u1"), ("pod_name", "pvc-u1-create"),
     ("dataset_name", "chaos/data/local-zfs-provisioner/pvc-u1"),
     ("mount_point", "/var/lib/local-zfs-provisioner/pvc-u1"),
     ("selected_node", "node-7"), ("phase", "Pending")]
    "pvc-u1" "chaos/data/local-zfs-provisioner/pvc-u1"
    "/var/lib/local-zfs-provisioner/pvc-u1" "node-7"
    rfl rfl rfl rfl rfl rfl rfl rfl rfl rfl rfl rfl

/-- Claim C3: the claim says a 1Gi request yields a quota of 1073741824 and
a 500M request 500000000.  The code disagrees: 1Gi is rewritten to 1Gib,
which bitmath parses as one gibibit, so the quota argument is 134217728;
and 500M is not a valid bitmath unit at all, so the handler raises
ValueError instead of building any quota. -/
theorem c3_quota_divergence :
    (create_dataset cfg0 meta0
        { storageClassName := some "zfs-local", requests_storage := some "1Gi" }
        apiEmpty).map (fun o => o.pod.map PodModel.args) =
      .ok (some ["dataset", "create", "--quota", "134217728",
                 "chaos/data/local-zfs-provisioner/pvc-u1",
                 "/var/lib/local-zfs-provisioner/pvc-u1"]) ∧
    create_dataset cfg0 meta0
        { storageClassName := some "zfs-local", requests_storage := some "500M" }
        apiEmpty = .error (.valueError "The unit M is not a valid bitmath unit") :=
  ⟨rfl, rfl⟩

/-- Claim C4 counterexample: a storage request of garbage does not lead to a
worker pod without quota; the uncaught ValueError aborts the handler. -/
theorem c4_counterexample :
    create_dataset cfg0 meta0
      { storageClassName := some "zfs-local", requests_storage := some "garbage" }
      apiEmpty = .error (.valueError "The unit garbage is not a valid bitmath unit") :=
  rfl

/-- Claim C4 amended: only a missing storage request is logged and
tolerated, yielding a worker pod whose argv has no quota flag; a present but
unparsable storage request propagates bitmath's ValueError and no worker pod
is created. -/
theorem c4_missing_vs_malformed
    (cfg : Config) (meta : Meta) (spec : PVCSpec) (api : ApiState)
    (scn : String) (sc : StorageClass) (node : String)
    (h1 : spec.storageClassName = some scn)
    (h2 : dget cfg.storage_classes scn = some sc)
    (h3 : dget sc.parameters "mode" = none)
    (h4 : dget meta.anns "volume.kubernetes.io/selected-node" = some node)
    (h5 : (("pvc-" ++ meta.uid) ++ "-create") ∉ api.pods) :
    (∃ out pod,
      create_dataset cfg meta { spec with requests_storage := none } api = .ok out ∧
      out.pod = some pod ∧
      pod.args = ["dataset", "create",
                  cfg.default_parent_dataset ++ "/" ++ ("pvc-" ++ meta.uid),
                  cfg.dataset_mount_dir ++ "/" ++ ("pvc-" ++ meta.uid)]) ∧
    (∀ s e, bitmath_parse_string (fix_suffix s) = .error e →
      create_dataset cfg meta { spec with requests_storage := some s } api = .error e) := by
  constructor
  · have hc :
      create_dataset cfg meta { spec with requests_storage := none } api =
        .ok { pod := some
                { name := ("pvc-" ++ meta.uid) ++ "-create", node := node,
                  args := ["dataset", "create",
                    cfg.default_parent_dataset ++ "/" ++ ("pvc-" ++ meta.uid),
                    cfg.dataset_mount_dir ++ "/" ++ ("pvc-" ++ meta.uid)],
                  action_label := "create" },
              annPatch := [(phaseKey "create", "Pending")],
              result := some
                [("pv_name", "pvc-" ++ meta.uid),
                 ("pod_name", ("pvc-" ++ meta.uid) ++ "-create"),
                 ("dataset_name",
                  cfg.default_parent_dataset ++ "/" ++ ("pvc-" ++ meta.uid)),
                 ("mount_point",
                  cfg.dataset_mount_dir ++ "/" ++ ("pvc-" ++ meta.uid)),
                 ("selected_node", node), ("phase", "Pending")] } := by
      simp only [create_dataset, create_dataset_sc, create_namespaced_pod,
        h1, h2, h3, h4]
      simp [h5]
    exact ⟨_, _, hc, rfl, rfl⟩
  · intro s e he
    simp only [create_dataset, create_dataset_sc, h1, h2, h3, h4, he]
    simp [he]

/-- Claim C4 witness for the amended theorem at a concrete world. -/
theorem c4_witness :
    (∃ out pod,
      create_dataset cfg0 meta0 { storageClassName := some "zfs-local" } apiEmpty =
        .ok out ∧ out.pod = some pod ∧
      pod.args = ["dataset", "create",
                  cfg0.default_parent_dataset ++ "/" ++ ("pvc-" ++ meta0.uid),
                  cfg0.dataset_mount_dir ++ "/" ++ ("pvc-" ++ meta0.uid)]) ∧
    create_dataset cfg0 meta0
        { storageClassName := some "zfs-local", requests_storage := some "garbage" }
        apiEmpty = .error (.valueError "The unit garbage is not a valid bitmath unit") := by
  have h := c4_missing_vs_malformed cfg0 meta0
    { storageClassName := some "zfs-local" } apiEmpty
    "zfs-local" scLocal "node-7" rfl rfl rfl rfl (by simp [apiEmpty])
  exact ⟨h.1, h.2 "garbage" _ rfl⟩

/-- Claim C6 counterexample: a PVC deletion whose results annotation has no
create_dataset sub-key makes delete_dataset raise KeyError; it does not
return normally. -/
theorem c6_counterexample :
    delete_dataset [] apiEmpty = .error (.keyError "create_dataset") :=
  rfl

/-- Claim C6 amended: when the results annotation lacks a create_dataset
sub-key, delete_dataset launches no pod and deletes no PV, but it raises
KeyError instead of returning normally, so the handler fails and the
finalizer is not released by a normal return. -/
theorem c6_missing_results_raise
    (results : ResultsDict) (api : ApiState)
    (h : dget results "create_dataset" = none) :
    delete_dataset results api = .error (.keyError "create_dataset") := by
  simp [delete_dataset, h]

/-- Claim C6 witness for the amended theorem at a concrete input. -/
theorem c6_witness :
    delete_dataset [("delete_dataset", [("pv_name", "pvc-u1")])] apiEmpty =
      .error (.keyError "create_dataset") :=
  c6_missing_results_raise _ _ rfl

/-- Claim C5 counterexample: a delete-action worker pod that reaches
Succeeded, owned by a PVC, triggers no PVC patch at all - the delete watcher
only deletes the pod. -/
theorem c5_counterexample :
    metaDeletePod.owners.length = 1 ∧
    dataset_delete_pod_event "pvc-u1-delete" "MODIFIED" metaDeletePod
        (some "Succeeded") "app" =
      .ok { patches := [], podDeleted := some "pvc-u1-delete" } :=
  ⟨rfl, rfl⟩

/-- Claim C5 amended: on a MODIFIED event with a terminal phase, the
create-action watcher patches the dataset-phase-create annotation of every
PersistentVolumeClaim owner and deletes the pod, while the delete-action
watcher deletes the pod and patches no PVC. -/
theorem c5_watcher_patch_only_create
    (metaC metaD : Meta) (phase ns podC podD : String)
    (hterm : phase = "Succeeded" ∨ phase = "Failed")
    (hlc : dget metaC.labels "zfs-provisioner/action" = some "create")
    (hld : dget metaD.labels "zfs-provisioner/action" = some "delete") :
    dataset_create_pod_event podC "MODIFIED" metaC (some phase) ns =
      .ok { patches := (metaC.owners.filter
              (fun o => o.kind == "PersistentVolumeClaim")).map
              (fun o => (o.name, o.ns.getD ns, [(phaseKey "create", phase)])),
            podDeleted := some podC } ∧
    dataset_delete_pod_event podD "MODIFIED" metaD (some phase) ns =
      .ok { patches := [], podDeleted := some podD } := by
  constructor
  · rcases hterm with h | h <;> subst h <;>
      simp [dataset_create_pod_event, phaseKeyOf, hlc]
  · rcases hterm with h | h <;> subst h <;>
      simp [dataset_delete_pod_event, hld]

/-- Claim C5 witness for the amended theorem at a concrete event. -/
theorem c5_witness :
    dataset_create_pod_event "pvc-u1-create" "MODIFIED"
        { labels := [("zfs-provisioner/action", "create")],
          owners := [{ kind := "PersistentVolumeClaim", name := "claim-a" }] }
        (some "Succeeded") "app" =
      .ok { patches :=
              (({ labels := [("zfs-provisioner/action", "create")],
                  owners := [{ kind := "PersistentVolumeClaim",
                               name := "claim-a" }] } : Meta).owners.filter
                (fun o => o.kind == "PersistentVolumeClaim")).map
                (fun o => (o.name, o.ns.getD "app",
                           [(phaseKey "create", "Succeeded")])),
            podDeleted := some "pvc-u1-create" } ∧
    dataset_delete_pod_event "pvc-u1-delete" "MODIFIED" metaDeletePod
        (some "Succeeded") "app" =
      .ok { patches := [], podDeleted := some "pvc-u1-delete" } :=
  c5_watcher_patch_only_create
    { labels := [("zfs-provisioner/action", "create")],
      owners := [{ kind := "PersistentVolumeClaim", name := "claim-a" }] }
    metaDeletePod "Succeeded" "app" "pvc-u1-create" "pvc-u1-delete"
    (Or.inl rfl) rfl rfl

/-- Claim C7: filter_create_dataset admits a PVC exactly when its status
phase is Pending, the dataset-phase-create annotation key is absent, the
storage class name resolves in the cache, and, under WaitForFirstConsumer
binding, the selected-node annotation key is present. -/
theorem c7_filter_create_dataset_iff
    (cfg : Config) (meta : Meta) (spec : PVCSpec) (ph : Option String) :
    filter_create_dataset cfg meta spec ph = true ↔
      (ph = some "Pending" ∧
       dget meta.anns (phaseKey "create") = none ∧
       ∃ scn sc, spec.storageClassName = some scn ∧
         dget cfg.storage_classes scn = some sc ∧
         (sc.volumeBindingMode = "WaitForFirstConsumer" →
           (dget meta.anns "volume.kubernetes.io/selected-node").isSome = true)) := by
  unfold filter_create_dataset
  split
  · rename_i h1
    constructor
    · intro hf; exact Bool.noConfusion hf
    · intro hc; exact absurd hc.1 h1
  · rename_i h1
    rw [not_ne_iff] at h1
    subst h1
    split
    · rename_i h2
      constructor
      · intro hf; exact Bool.noConfusion hf
      · rintro ⟨-, hnone, -⟩
        rw [hnone] at h2
        exact Bool.noConfusion h2
    · rename_i h2
      rw [Option.not_isSome_iff_eq_none] at h2
      cases hs : spec.storageClassName with
      | none =>
        constructor
        · intro hf; simp at hf
        · rintro ⟨-, -, scn, sc, hcontra, -⟩
          exact Option.noConfusion hcontra
      | some scn =>
        cases hd : dget cfg.storage_classes scn with
        | none =>
          constructor
          · intro hf; simp [hd] at hf
          · rintro ⟨-, -, scn', sc, hsc, hdg, -⟩
            injection hsc with hsc
            subst hsc
            rw [hd] at hdg
            exact Option.noConfusion hdg
        | some sc =>
          constructor
          · intro hf
            simp only [hd] at hf
            refine ⟨rfl, h2, scn, sc, rfl, hd, ?_⟩
            intro hw
            rw [if_pos hw] at hf
            exact hf
          · rintro ⟨-, -, scn', sc', hsc, hdg, himp⟩
            injection hsc with hsc
            subst hsc
            rw [hd] at hdg
            injection hdg with hdg
            subst hdg
            simp only [hd]
            by_cases hw : sc.volumeBindingMode = "WaitForFirstConsumer"
            · rw [if_pos hw]; exact himp hw
            · rw [if_neg hw]

/-- Claim C7 witness: the admission filter accepts a concrete Pending PVC on
a cached Immediate-binding storage class. -/
theorem c7_witness :
    filter_create_dataset cfg0 meta0 { storageClassName := some "zfs-local" }
      (some "Pending") = true :=
  (c7_filter_create_dataset_iff cfg0 meta0
      { storageClassName := some "zfs-local" } (some "Pending")).mpr
    ⟨rfl, rfl, "zfs-local", scLocal, rfl, rfl, fun _ => rfl⟩

/-- Claim C8 counterexample: for a PVC requesting two access modes, with the
create phase Succeeded, create_pv completes successfully and publishes a PV
carrying only the first mode - it does not reject with an error. -/
theorem c8_counterexample :
    (create_pv cfg0 "claim-a" "app" metaSucceeded specMulti resultsU1).map
        (fun o => o.pvCreated.map (fun p => p.access_modes)) =
      .ok (some ["ReadWriteOnce"]) :=
  rfl

/-- Claim C8 amended: whenever create_pv publishes a PV for a PVC whose
requested access modes are am :: rest, that PV's accessModes is exactly the
single-element list [am]; a PVC with several modes is not rejected, the
extra modes are silently dropped. -/
theorem c8_pv_first_access_mode
    (cfg : Config) (name ns : String) (meta : Meta) (spec : PVCSpec)
    (results : ResultsDict) (out : HandlerOut) (pv : PVData)
    (am : String) (rest : List String)
    (hmodes : spec.accessModes = am :: rest)
    (hok : create_pv cfg name ns meta spec results = .ok out)
    (hpv : out.pvCreated = some pv) :
    pv.access_modes = [am] := by
  simp only [create_pv, hmodes] at hok
  repeat' split at hok
  all_goals first
    | exact Except.noConfusion hok
    | (injection hok with hok
       subst hok
       first
        | exact Option.noConfusion hpv
        | (injection hpv with hpv
           subst hpv
           rfl))

/-- Claim C8 witness for the amended theorem at a concrete input. -/
theorem c8_witness : pvFix.access_modes = ["ReadWriteOnce"] :=
  c8_pv_first_access_mode cfg0 "claim-a" "app" metaSucceeded specMulti
    resultsU1 outFix pvFix "ReadWriteOnce" ["ReadOnlyMany"] rfl rfl rfl

/-- When the storage class mode resolves to local, create_dataset_sc never
produces a HandlerFatalError: its failures are the selected-node KeyError,
bitmath's ValueError, or the pod-creation ApiException. -/
theorem create_dataset_sc_local_no_fatal
    (cfg : Config) (meta : Meta) (spec : PVCSpec) (api : ApiState)
    (sc : StorageClass)
    (hm : (dget sc.parameters "mode").getD "local" = "local") (msg : String) :
    create_dataset_sc cfg meta spec api sc ≠ .error (.fatalError msg) := by
  cases hsel : dget meta.anns "volume.kubernetes.io/selected-node" with
  | none => simp [create_dataset_sc, hm, hsel]
  | some node =>
    cases hst : spec.requests_storage with
    | none =>
      cases hpod : create_namespaced_pod api (("pvc-" ++ meta.uid) ++ "-create") with
      | error e =>
        have he := create_namespaced_pod_error_shape _ _ _ hpod
        subst he
        simp [create_dataset_sc, hm, hsel, hst, hpod]
      | ok ph => simp [create_dataset_sc, hm, hsel, hst, hpod]
    | some storage =>
      cases hq : bitmath_parse_string (fix_suffix storage) with
      | error e =>
        obtain ⟨m2, hm2⟩ := bitmath_parse_string_error_shape _ _ hq
        subst hm2
        simp [create_dataset_sc, hm, hsel, hst, hq]
      | ok q =>
        cases hpod : create_namespaced_pod api (("pvc-" ++ meta.uid) ++ "-create") with
        | error e =>
          have he := create_namespaced_pod_error_shape _ _ _ hpod
          subst he
          simp [create_dataset_sc, hm, hsel, hst, hq, hpod]
        | ok ph => simp [create_dataset_sc, hm, hsel, hst, hq, hpod]

/-- Claim C9: when the storage class parameters carry no mode key,
create_dataset behaves exactly as with mode set to local, and the fatal
unsupported-mode error can only arise when a mode key is present with a
value other than local. -/
theorem c9_mode_defaults_local
    (cfg : Config) (meta : Meta) (spec : PVCSpec) (api : ApiState)
    (sc : StorageClass) :
    (dget sc.parameters "mode" = none →
      create_dataset_sc cfg meta spec api sc =
        create_dataset_sc cfg meta spec api
          { sc with parameters := ("mode", "local") :: sc.parameters }) ∧
    (∀ msg, create_dataset_sc cfg meta spec api sc = .error (.fatalError msg) →
      ∃ m, dget sc.parameters "mode" = some m ∧ m ≠ "local") := by
  constructor
  · intro h
    simp [create_dataset_sc, dget, h]
  · intro msg hmsg
    by_cases hm : (dget sc.parameters "mode").getD "local" = "local"
    · exact absurd hmsg (create_dataset_sc_local_no_fatal cfg meta spec api sc hm msg)
    · cases hd : dget sc.parameters "mode" with
      | none =>
        rw [hd] at hm
        simp at hm
      | some m =>
        rw [hd] at hm
        simp only [Option.getD_some] at hm
        exact ⟨m, rfl, hm⟩

/-- Claim C9 witness: the default-to-local half of the theorem applied to a
storage class with no mode key. -/
theorem c9_witness :
    create_dataset_sc cfg0 meta0 {} apiEmpty scLocal =
      create_dataset_sc cfg0 meta0 {} apiEmpty
        { scLocal with parameters := ("mode", "local") :: scLocal.parameters } :=
  (c9_mode_defaults_local cfg0 meta0 {} apiEmpty scLocal).1 rfl

/-- Claim C10: the annotate_results wrapper around create_pv never rewrites
the results annotation: create_pv returns None on every path, so no
create_pv sub-key is ever stored. -/
theorem c10_create_pv_no_results_write
    (cfg : Config) (name ns : String) (meta : Meta) (spec : PVCSpec)
    (results : ResultsDict) :
    create_pv_results_patch cfg name ns meta spec results = none := by
  unfold create_pv_results_patch
  cases h : create_pv cfg name ns meta spec results with
  | error e => rfl
  | ok out =>
    have hr : out.result = none := by
      simp only [create_pv] at h
      repeat' split at h
      all_goals first
        | exact Except.noConfusion h
        | (injection h with h2
           subst h2
           rfl)
    simp [annotate_results_patch, hr]

end ZfsProv
